import Mathlib

/-!
Shallow embedding of the sigaa-ufpa-mcp repository (src/sigaa_actor.py,
src/server.py, src/utils/sigaa_helpers.py, src/utils/pdf_extractor.py).

Browser and network effects are modelled by explicit environment records:
each external interaction (element lookup, page navigation, filesystem scan,
LLM agent run) is an oracle field of the environment, and each oracle that can
raise a Python exception is modelled with an `Option String` / `Except String`
outcome.  Operations become pure functions from (environment, state) to
(result, new state, trace of performed external actions).  Python dicts
returned by the operations become the `OpResult` structure, in which an absent
dict key is `none`.  Python floats are modelled as exact rationals `ℚ`.
-/

namespace SigaaMCP

/-! ## Character-list string utilities (Python `in`, `.endswith`, `.strip`) -/

/-- Boolean infix test on character lists: does `pat` occur contiguously in the
list?  Models the Python `pat in s` substring test. -/
def charsInfixB (pat : List Char) : List Char → Bool
  | [] => pat.isEmpty
  | c :: rest => pat.isPrefixOf (c :: rest) || charsInfixB pat rest

/-- Python `needle in hay` on strings. -/
def strContains (hay needle : String) : Bool :=
  charsInfixB needle.toList hay.toList

/-- Python `s.endswith(suffix)`. -/
def strEndsWith (s suffix : String) : Bool :=
  suffix.toList.isSuffixOf s.toList

/-- Python `s.strip()` on a character list. -/
def trimChars (l : List Char) : List Char :=
  ((l.dropWhile Char.isWhitespace).reverse.dropWhile Char.isWhitespace).reverse

/-- Python `s.lower()` (character-wise; every string the source lowercases is
ASCII, where `Char.toLower` and Python agree). -/
def strToLower (s : String) : String :=
  ⟨s.toList.map Char.toLower⟩

/-! ## Result and state model (src/sigaa_actor.py) -/

/-- The result dict returned by every `SIGAAActor` operation; a key absent from
the Python dict is `none` here.  (`sectionName` stands for the `"section"`
key.) -/
structure OpResult where
  success : Bool
  message : Option String := none
  error : Option String := none
  logged_in : Option Bool := none
  user_info : Option (List (String × String)) := none
  current_url : Option String := none
  document_type : Option String := none
  file_path : Option String := none
  filename : Option String := none
  browser_active : Option Bool := none
  on_sigaa : Option Bool := none
  sectionName : Option String := none
deriving DecidableEq, Repr

/-- The mutable fields of `SIGAAActor` relevant to the verified operations:
`self.browser` (as a presence flag), `self.current_page` (as a presence flag),
`self.is_logged_in_flag` and `self.user_info`. -/
structure ActorState where
  browserActive : Bool
  hasCurrentPage : Bool
  is_logged_in_flag : Bool
  user_info : List (String × String)
deriving DecidableEq, Repr

/-- `SIGAAActor.__init__`: browser `None`, page `None`, flag `False`,
`user_info = {}`. -/
def initialActorState : ActorState :=
  { browserActive := false, hasCurrentPage := false,
    is_logged_in_flag := false, user_info := [] }

/-- `SIGAAActor.is_logged_in`: pure read of the in-memory flag. -/
def is_logged_in (st : ActorState) : Bool :=
  st.is_logged_in_flag

/-- `SIGAAConfig.BASE_URL`. -/
def BASE_URL : String := "https://sigaa.ufpa.br"

/-- `SIGAAConfig.LOGIN_URL`. -/
def LOGIN_URL : String := BASE_URL ++ "/sigaa/public/home.jsf"

/-! ## Login (src/sigaa_actor.py, `SIGAAActor.login`, lines 89-214) -/

/-- External browser actions performed by `login`, recorded as a trace. -/
inductive BrowserAction
  | newPage (url : String)
  | searchLoginFields
  | fillUsername
  | fillPassword
  | clickLogin
  | evalPage
  | extractUserInfo
  | searchErrorElements
deriving DecidableEq, Repr

/-- Oracle for the browser interactions of `login`.

* `newPageRaises`: an exception at `self.browser.new_page(...)` (this includes
  the `AttributeError` when `self.browser` is `None`); caught by the outer
  `except`.
* `fieldsFound`: whether the 5-attempt field-location loop (which catches its
  own exceptions internally and therefore never raises) ends with all of
  username field, password field and login button located.
* `midRaises`: an exception at the fill/click/evaluate segment (represented at
  its first browser action); caught by the outer `except`.
* `currentUrl` / `pageContent`: the two `page.evaluate` reads.
* `extractInfoOutcome`: result of `_extract_user_info` (that helper catches
  its own exceptions, but the code also wraps the call in `try/except`
  falling back to `{"username": username}`).
* `errorScrape`: `some t` when error elements are present and their
  `innerText` evaluates to a non-empty text `t`; `none` when the default
  message stands (no error element, empty text, or an exception swallowed by
  the inner bare `except: pass`). -/
structure LoginEnv where
  newPageRaises : Option String
  fieldsFound : Bool
  midRaises : Option String
  currentUrl : String
  pageContent : String
  extractInfoOutcome : Except String (List (String × String))
  errorScrape : Option String
deriving Repr

/-- The output of a stateful operation: the result dict, the new actor state
and a trace of the external actions performed. -/
structure StepOut where
  result : OpResult
  state : ActorState
  trace : List BrowserAction
deriving Repr

/-- The `success_indicators` list of `login`. -/
def success_indicators : List String :=
  ["Portal do Discente", "menu discente", "Bem-vindo", "logout"]

/-- `any(indicator.lower() in page_content.lower() for indicator in
success_indicators)`. -/
def loginSuccessful (page_content : String) : Bool :=
  success_indicators.any (fun ind => strContains (strToLower page_content) (strToLower ind))

/-- `SIGAAActor.login`.  Faithful transliteration of the branch structure:
memoized short-circuit, navigation, field-location loop, credential fill and
submit, success-indicator check, error-message scrape, and the outer `except`
converting any exception into a structured failure. -/
def login (env : LoginEnv) (st : ActorState) (username _password : String)
    (force_new : Bool) : StepOut :=
  if st.is_logged_in_flag && !force_new then
    { result := { success := true, message := some "Já logado no SIGAA",
                  logged_in := some true, user_info := some st.user_info },
      state := st, trace := [] }
  else
    match env.newPageRaises with
    | some e =>
      { result := { success := false, error := some e, logged_in := some false },
        state := st, trace := [.newPage LOGIN_URL] }
    | none =>
      if !env.fieldsFound then
        { result := { success := false,
                      error := some "Não foi possível localizar os campos de login",
                      logged_in := some false },
          state := st, trace := [.newPage LOGIN_URL, .searchLoginFields] }
      else
        match env.midRaises with
        | some e =>
          { result := { success := false, error := some e, logged_in := some false },
            state := st,
            trace := [.newPage LOGIN_URL, .searchLoginFields, .fillUsername] }
        | none =>
          let fullTrace : List BrowserAction :=
            [.newPage LOGIN_URL, .searchLoginFields, .fillUsername,
             .fillPassword, .clickLogin, .evalPage]
          if loginSuccessful env.pageContent
              || strContains (strToLower env.currentUrl) "discente" then
            let ui : List (String × String) :=
              match env.extractInfoOutcome with
              | .ok info => info
              | .error _ => [("username", username)]
            { result := { success := true,
                          message := some "Login realizado com sucesso",
                          logged_in := some true, user_info := some ui,
                          current_url := some env.currentUrl },
              state := { st with is_logged_in_flag := true,
                                 hasCurrentPage := true, user_info := ui },
              trace := fullTrace ++ [.extractUserInfo] }
          else
            let error_message :=
              match env.errorScrape with
              | some t => t
              | none => "Falha no login - verifique suas credenciais"
            { result := { success := false, error := some error_message,
                          logged_in := some false,
                          current_url := some env.currentUrl },
              state := st, trace := fullTrace ++ [.searchErrorElements] }

/-! ## Logout (src/sigaa_actor.py, `SIGAAActor.logout`, lines 626-654) -/

/-- Outcome of the sign-out-control lookup in `logout`. -/
inductive LogoutLookup
  | raises (msg : String)
  | found
  | notFound
deriving DecidableEq, Repr

/-- Oracle for `logout`: the prompt lookup of a sign-out control, and a
possible exception when clicking it. -/
structure LogoutEnv where
  lookupOutcome : LogoutLookup
  clickRaises : Option String
deriving Repr

/-- `SIGAAActor.logout`.  No session: flag reset, success (user_info is NOT
cleared on this path).  Otherwise: look for a sign-out control, click it when
found, then reset flag and user_info; an exception resets the flag (in the
`except` block) and returns a structured failure. -/
def logout (env : LogoutEnv) (st : ActorState) : OpResult × ActorState :=
  if st.hasCurrentPage = false then
    ({ success := true, message := some "Nenhuma sessão ativa" },
     { st with is_logged_in_flag := false })
  else
    match env.lookupOutcome with
    | .raises e =>
      ({ success := false, error := some e },
       { st with is_logged_in_flag := false })
    | .found =>
      match env.clickRaises with
      | some e =>
        ({ success := false, error := some e },
         { st with is_logged_in_flag := false })
      | none =>
        ({ success := true, message := some "Logout realizado com sucesso" },
         { st with is_logged_in_flag := false, user_info := [] })
    | .notFound =>
      ({ success := true, message := some "Logout realizado com sucesso" },
       { st with is_logged_in_flag := false, user_info := [] })

/-! ## Cleanup (src/sigaa_actor.py, `SIGAAActor.cleanup`, lines 656-670) -/

/-- `SIGAAActor.cleanup`: stops the browser and clears all session fields.
When `browser.stop()` raises, the `except` block is entered before any of the
assignments run, so the state is left untouched. -/
def cleanup (stopRaises : Bool) (st : ActorState) : ActorState :=
  if st.browserActive && stopRaises then st
  else { browserActive := false, hasCurrentPage := false,
         is_logged_in_flag := false, user_info := [] }

/-! ## Status (src/sigaa_actor.py, `SIGAAActor.check_status`, lines 595-624) -/

/-- Oracle for `check_status`: the `window.location.href` evaluate on the
current page; `none` models an exception swallowed by the inner
`except: pass` (in which case the url keys are simply not added). -/
structure StatusEnv where
  urlEval : Option String
deriving Repr

/-- `SIGAAActor.check_status`.  Browser not initialized: structured failure
with `logged_in: False`.  Otherwise a success dict reporting the in-memory
flag, with best-effort url enrichment.  Never mutates the state. -/
def check_status (env : StatusEnv) (st : ActorState) : OpResult :=
  if st.browserActive = false then
    { success := false, logged_in := some false,
      error := some "Browser não inicializado" }
  else
    let base : OpResult :=
      { success := true, logged_in := some st.is_logged_in_flag,
        user_info := some st.user_info, browser_active := some true }
    if st.hasCurrentPage then
      match env.urlEval with
      | some url =>
        { base with current_url := some url,
                    on_sigaa := some (strContains url "sigaa.ufpa.br") }
      | none => base
    else base

/-! ## Navigation (src/sigaa_actor.py, `SIGAAActor.navigate_to_section`,
lines 253-301) -/

/-- Outcome of one per-term attempt in `navigate_to_section`: the element
lookup/click/evaluate either raises (caught by the inner `except`, which
`continue`s), finds no element, or succeeds. -/
inductive NavOutcome
  | raises (msg : String)
  | notFound
  | found
deriving DecidableEq, Repr

/-- Oracle for `navigate_to_section`. -/
structure NavEnv where
  termOutcome : String → NavOutcome
  currentUrl : String

/-- The `section_map` dict of `navigate_to_section`. -/
def section_map_lookup : String → Option (List String)
  | "notas" => some ["Consultar Notas", "notas", "grades"]
  | "historico" => some ["Histórico", "histórico acadêmico", "transcript"]
  | "matricula" => some ["Matrícula", "enrollment", "disciplinas"]
  | "comprovantes" => some ["Comprovantes", "documentos", "certificates"]
  | "atestados" => some ["Atestados", "atestado de matrícula"]
  | "horario" => some ["Horário", "horário de aulas", "schedule"]
  | _ => none

/-- The per-term loop of `navigate_to_section`. -/
def navLoop (env : NavEnv) (sectionArg : String) : List String → OpResult
  | [] =>
    { success := false,
      error := some ("Não foi possível encontrar a seção: " ++ sectionArg),
      sectionName := some sectionArg }
  | term :: rest =>
    match env.termOutcome term with
    | .found =>
      { success := true, message := some ("Navegado para seção: " ++ sectionArg),
        sectionName := some sectionArg, current_url := some env.currentUrl }
    | _ => navLoop env sectionArg rest

/-- `SIGAAActor.navigate_to_section`. -/
def navigate_to_section (env : NavEnv) (st : ActorState) (sectionArg : String) :
    OpResult :=
  if st.hasCurrentPage = false then
    { success := false, error := some "Nenhuma sessão ativa" }
  else
    navLoop env sectionArg
      ((section_map_lookup (strToLower sectionArg)).getD [sectionArg])

/-! ## Document download (src/sigaa_actor.py, `SIGAAActor.download_document`,
lines 398-475) -/

/-- Filesystem / download-related external actions, recorded as a trace.
`mkdirp` and `renameFile` are the only filesystem writes the operation can
perform. -/
inductive FileAction
  | promptLookup (phrase : String)
  | mkdirp (dir : String)
  | click
  | renameFile (fromDir fromName toDir toName : String)
deriving DecidableEq, Repr

/-- One file of the modelled filesystem: its directory, its name within that
directory, and its modification time (`st_mtime`, in seconds). -/
structure FSEntry where
  dir : String
  name : String
  mtime : Int
deriving DecidableEq, Repr

/-- The modelled filesystem: a flat list of files. -/
abbrev FS := List FSEntry

/-- `Path.exists()` for `dir/name`. -/
def fsExists (fs : FS) (dir name : String) : Bool :=
  fs.any (fun e => e.dir == dir && e.name == name)

/-- `downloads_dir.glob(f"*.{format}")`: the files of `dir` whose name ends in
`.ext`, in filesystem order. -/
def globExt (fs : FS) (dir ext : String) : List FSEntry :=
  fs.filter (fun e => e.dir == dir && strEndsWith e.name ("." ++ ext))

/-- The `latest_file` / `latest_time` scan: starts from `(None, 0)` and keeps
the first file strictly more recent than everything seen so far. -/
def selectLatest (files : List FSEntry) : Option FSEntry × Int :=
  files.foldl (fun acc f => if f.mtime > acc.2 then (some f, f.mtime) else acc)
    (none, 0)

/-- `file.rename(new)`: remove the old entry and add it back under the new
directory and name, preserving its modification time. -/
def fsRename (fs : FS) (old : FSEntry) (toDir toName : String) : FS :=
  fs.filter (fun e => !(e.dir == old.dir && e.name == old.name))
    ++ [{ dir := toDir, name := toName, mtime := old.mtime }]

/-- Outcome of the per-term download-link lookup. -/
inductive LinkOutcome
  | raises (msg : String)
  | noLink
  | found
deriving DecidableEq, Repr

/-- Oracle for `download_document`: the `DOWNLOAD_PATH` environment variable,
the `datetime.now().strftime(...)` timestamp, the per-term link lookup, a
possible exception at the click, the current `datetime.now().timestamp()`,
and the filesystem contents. -/
structure DownloadEnv where
  downloadPathEnv : Option String
  timestamp : String
  termOutcome : String → LinkOutcome
  clickRaises : Option String
  now : Int
  fs : FS

/-- The hard-coded fallback downloads directory. -/
def DOWNLOADS_DIR : String := "/app/data/downloads"

/-- The `doc_map` dict of `download_document`. -/
def docMapLookup : String → Option (List String)
  | "historico_academico" =>
    some ["histórico acadêmico", "histórico escolar", "transcript"]
  | "comprovante_matricula" =>
    some ["comprovante de matrícula", "atestado de matrícula"]
  | "diploma" => some ["diploma", "certificado"]
  | "ira" => some ["índice de rendimento", "IRA", "coeficiente"]
  | _ => none

/-- `search_terms = doc_map.get(doc_type, [doc_type])`. -/
def searchTermsOf (doc_type : String) : List String :=
  (docMapLookup doc_type).getD [doc_type]

/-- The generic failure returned after the term loop. -/
def downloadFailure (doc_type : String) : OpResult :=
  { success := false,
    error := some ("Não foi possível baixar documento: " ++ doc_type),
    document_type := some doc_type }

/-- The post-click part of a download attempt (the body of `download_document`
after `await download_link.click()` succeeded): check the timestamped target
path, otherwise scan the downloads directory for the most recent matching
file and accept it only when `now - latest_time < 60`; if nothing is
accepted, the `break` that follows ends the term loop with the generic
failure. -/
def downloadCheck (env : DownloadEnv) (doc_type fmt phrase : String) :
    OpResult × FS × List FileAction :=
  let download_path := env.downloadPathEnv.getD DOWNLOADS_DIR
  let fname := doc_type ++ "_" ++ env.timestamp ++ "." ++ fmt
  let tr1 : List FileAction :=
    [.promptLookup phrase, .mkdirp download_path, .click]
  if fsExists env.fs download_path fname then
    ({ success := true, document_type := some doc_type,
       file_path := some (download_path ++ "/" ++ fname),
       filename := some fname }, env.fs, tr1)
  else
    match selectLatest (globExt env.fs DOWNLOADS_DIR fmt) with
    | (some latest, latestTime) =>
      if env.now - latestTime < 60 then
        ({ success := true, document_type := some doc_type,
           file_path := some (download_path ++ "/" ++ fname),
           filename := some fname },
         fsRename env.fs latest download_path fname,
         tr1 ++ [.renameFile latest.dir latest.name download_path fname])
      else
        (downloadFailure doc_type, env.fs, tr1)
    | (none, _) => (downloadFailure doc_type, env.fs, tr1)

/-- The per-term loop of `download_document`.  When `self.current_page` is
`None` the attribute access raises before any browser call; the inner
`except` catches it and `continue`s, so no action is recorded.  When a link
lookup raises or finds nothing, the loop moves to the next term; when the
click raises, the inner `except` also `continue`s (after the `mkdir` already
ran); when the click succeeds, `downloadCheck` finishes the request. -/
def downloadLoop (env : DownloadEnv) (st : ActorState) (doc_type fmt : String) :
    List String → OpResult × FS × List FileAction
  | [] => (downloadFailure doc_type, env.fs, [])
  | term :: rest =>
    if st.hasCurrentPage = false then
      downloadLoop env st doc_type fmt rest
    else
      let phrase := "link para gerar ou baixar " ++ term
      match env.termOutcome term with
      | .raises _ =>
        let r0 := downloadLoop env st doc_type fmt rest
        (r0.1, r0.2.1, .promptLookup phrase :: r0.2.2)
      | .noLink =>
        let r0 := downloadLoop env st doc_type fmt rest
        (r0.1, r0.2.1, .promptLookup phrase :: r0.2.2)
      | .found =>
        match env.clickRaises with
        | some _ =>
          let r0 := downloadLoop env st doc_type fmt rest
          (r0.1, r0.2.1,
           [.promptLookup phrase, .mkdirp (env.downloadPathEnv.getD DOWNLOADS_DIR)]
             ++ r0.2.2)
        | none => downloadCheck env doc_type fmt phrase

/-- `SIGAAActor.download_document`. -/
def download_document (env : DownloadEnv) (st : ActorState)
    (doc_type fmt : String) : OpResult × FS × List FileAction :=
  downloadLoop env st doc_type fmt (searchTermsOf doc_type)

/-! ## Server startup status (src/server.py, lines 36-37, 167-182, 251-262) -/

/-- The process-wide `startup_status` dict. -/
structure StartupStatus where
  success : Bool
  message : String
  logged_in : Bool
deriving DecidableEq, Repr

/-- `startup_status = {"success": False, "message": "", "logged_in": False}`. -/
def initialStartupStatus : StartupStatus :=
  { success := false, message := "", logged_in := false }

/-- Oracle for `full_login_procedure_discente`: the combined outcome of
`browser.start()`, `get_current_page()`, `goto` and `perform_login_discente`
(any of which can raise; the raised message is the `Except.error` payload). -/
structure ServerLoginEnv where
  loginOutcome : Except String Unit
deriving Repr

/-- `full_login_procedure_discente` (src/server.py lines 167-182): on success
sets all three `startup_status` fields to the success triple; on any exception
sets all three to the failure triple.  The prior status is overwritten either
way. -/
def full_login_procedure_discente (env : ServerLoginEnv) (_st : StartupStatus) :
    StartupStatus :=
  match env.loginOutcome with
  | .ok _ =>
    { success := true, message := "Login realizado com sucesso", logged_in := true }
  | .error e =>
    { success := false, message := "Erro no login SIGAA: " ++ e, logged_in := false }

/-- `reiniciar_sessao` (src/server.py lines 251-262): reruns the login
procedure and returns the three fields of the fresh status. -/
def reiniciar_sessao (env : ServerLoginEnv) (st : StartupStatus) :
    OpResult × StartupStatus :=
  let st2 := full_login_procedure_discente env st
  ({ success := st2.success, message := some st2.message,
     logged_in := some st2.logged_in }, st2)

/-- `get_status_login` (src/server.py lines 228-234): pure read of the three
`startup_status` fields (the first one under the key `startup_success`). -/
def get_status_login (st : StartupStatus) : Bool × String × Bool :=
  (st.success, st.message, st.logged_in)

/-! ## Server tool wrapper (src/server.py, `baixar_historico_escolar`,
lines 266-297) -/

/-- Oracle for `baixar_historico_escolar`: the agent run either returns a
result object (passed through verbatim) or raises. -/
structure AgentEnv where
  outcome : Except String OpResult
deriving Repr

/-- `baixar_historico_escolar`: `return result` on success, and
`{"success": False, "error": str(e)}` on any exception. -/
def baixar_historico_escolar (env : AgentEnv) : OpResult :=
  match env.outcome with
  | .ok r => r
  | .error e => { success := false, error := some e }

/-! ## PDF text extraction (src/utils/pdf_extractor.py) -/

/-- `text.replace(old, new)`: replace every non-overlapping occurrence of
`pat`, scanning left to right (character-list model of Python `str.replace`;
an empty pattern is never used by the source, and is treated as no match). -/
def replaceAll (pat rep : List Char) : List Char → List Char
  | [] => []
  | c :: rest =>
    if pat.isPrefixOf (c :: rest) && !pat.isEmpty then
      rep ++ replaceAll pat rep (List.drop (pat.length - 1) rest)
    else
      c :: replaceAll pat rep rest
termination_by l => l.length
decreasing_by
  · simp only [List.length_drop, List.length_cons]
    omega
  · simp

/-- `text.split('\n')` on a character list. -/
def splitNl : List Char → List (List Char)
  | [] => [[]]
  | c :: rest =>
    if c = '\n' then [] :: splitNl rest
    else
      match splitNl rest with
      | [] => [[c]]
      | s :: ss => (c :: s) :: ss

/-- `'\n'.join(parts)`. -/
def intercalateNl : List (List Char) → List Char
  | [] => []
  | [p] => p
  | p :: ps => p ++ '\n' :: intercalateNl ps

/-- `PDFExtractor._clean_extracted_text` (lines 43-57): collapse triple
newlines, strip every line, drop empty lines, rejoin with newlines.  (The
`except` fallback of the source is dead: none of these string operations can
raise.) -/
def _clean_extracted_text (text : List Char) : List Char :=
  let cleaned := replaceAll ['\n', '\n', '\n'] ['\n', '\n'] text
  let lines := (splitNl cleaned).map trimChars
  intercalateNl (lines.filter (fun l => !l.isEmpty))

/-- The page-concatenation loop of `extract_text_from_pdf`:
`text_content += page.extract_text() + "\n"` over the pages in order. -/
def gluePages (pages : List (List Char)) : List Char :=
  (pages.map (fun p => p ++ ['\n'])).flatten

/-- Oracle for `extract_text_from_pdf`: whether `Path(pdf_path).exists()`, and
the outcome of reading and decoding the document (`.ok pages` gives the text
extracted from each page in page order; `.error` models any read or decode
exception, caught by the outer `except`). -/
structure PDFEnv where
  fileExists : Bool
  readOutcome : Except String (List (List Char))

/-- `PDFExtractor.extract_text_from_pdf` (lines 12-41). -/
def extract_text_from_pdf (env : PDFEnv) : Option (List Char) :=
  if env.fileExists = false then none
  else
    match env.readOutcome with
    | .error _ => none
    | .ok pages => some (_clean_extracted_text (gluePages pages))

/-! ## Grade helpers (src/utils/sigaa_helpers.py, `parse_grade` lines 10-23,
`calculate_gpa` lines 44-65) -/

/-- Decimal digits of a character list read as a natural number
(`int`-like accumulation; only called on digit characters). -/
def digitsToNat (l : List Char) : Nat :=
  l.foldl (fun acc c => acc * 10 + (c.toNat - '0'.toNat)) 0

/-- `text.split('.')` on a character list. -/
def splitDot : List Char → List (List Char)
  | [] => [[]]
  | c :: rest =>
    if c = '.' then [] :: splitDot rest
    else
      match splitDot rest with
      | [] => [[c]]
      | s :: ss => (c :: s) :: ss

/-- Python `float(s)` restricted to strings of digits and dots (all that can
remain after `parse_grade`'s cleaning): requires at least one digit and at
most one dot; the value is `intpart.fracpart` as an exact rational. -/
def pyFloat (l : List Char) : Option ℚ :=
  if !l.any Char.isDigit then none
  else
    match splitDot l with
    | [ip] => some (digitsToNat ip : ℚ)
    | [ip, fp] =>
      some ((digitsToNat ip : ℚ) + (digitsToNat fp : ℚ) / ((10 : ℚ) ^ fp.length))
    | _ => none

/-- `SIGAAHelpers.parse_grade`: strip every character other than digits,
commas and dots; replace commas by dots when present; parse as float,
returning `None` on any failure (the bare `except`). -/
def parse_grade (grade_text : String) : Option ℚ :=
  let clean_text :=
    grade_text.toList.filter (fun c => c.isDigit || c = ',' || c = '.')
  let clean_text2 :=
    if clean_text.contains ',' then
      clean_text.map (fun c => if c = ',' then '.' else c)
    else clean_text
  pyFloat clean_text2

/-- A Python value found under the `'creditos'` key: a number (int or float,
modelled as an exact rational), or any non-numeric value, for which
`credits > 0` raises a `TypeError`. -/
inductive CredVal
  | num (q : ℚ)
  | other
deriving DecidableEq, Repr

/-- One subject dict as consumed by `calculate_gpa`: `none` fields model
absent keys (`subject.get('nota', '0')`, `subject.get('creditos', 0)`).
A non-string `'nota'` value behaves like an unparseable string (the `re.sub`
call raises and `parse_grade`'s bare `except` returns `None`), so `nota` is
modelled as the string value when present. -/
structure SubjectDict where
  nota : Option String
  creditos : Option CredVal
deriving Repr

/-- `subject.get('creditos', 0)`. -/
def getCred (s : SubjectDict) : CredVal :=
  s.creditos.getD (.num 0)

/-- The accumulation loop of `calculate_gpa`, threading
`(total_points, total_credits)`.  Python evaluates
`grade is not None and credits > 0` with short-circuiting: the credits
comparison (which raises `TypeError` on a non-numeric value) only runs when
the grade parsed.  A raised `TypeError` aborts the loop (`Except.error`),
to be caught by `calculate_gpa`'s outer `except`. -/
def gpaLoop : List SubjectDict → ℚ × ℚ → Except Unit (ℚ × ℚ)
  | [], acc => .ok acc
  | s :: rest, (tp, tc) =>
    match parse_grade (s.nota.getD "0") with
    | none => gpaLoop rest (tp, tc)
    | some g =>
      match getCred s with
      | .other => .error ()
      | .num c =>
        if c > 0 then gpaLoop rest (tp + g * c, tc + c)
        else gpaLoop rest (tp, tc)

/-- Floor of a rational as an integer (floor division of the numerator by the
positive denominator). -/
def ratFloor (q : ℚ) : Int :=
  Int.fdiv q.num (q.den : Int)

/-- Nearest integer with ties to even (Python `round` semantics, on the exact
rational model of floats). -/
def roundHalfEven (q : ℚ) : Int :=
  let f := ratFloor q
  let r := q - (f : ℚ)
  if r < 1 / 2 then f
  else if r > 1 / 2 then f + 1
  else if f % 2 = 0 then f else f + 1

/-- `round(x, 2)` on the exact rational model. -/
def pyRound2 (q : ℚ) : ℚ :=
  (roundHalfEven (q * 100) : ℚ) / 100

/-- `SIGAAHelpers.calculate_gpa`: run the accumulation loop; on a caught
exception return `None`; otherwise divide only under the
`total_credits > 0` guard, else `None`. -/
def calculate_gpa (grades : List SubjectDict) : Option ℚ :=
  match gpaLoop grades (0, 0) with
  | .error _ => none
  | .ok (tp, tc) => if tc > 0 then some (pyRound2 (tp / tc)) else none

/-- The claim's formulation of the GPA, written independently of the loop:
the qualifying subjects are those whose `'nota'` parses and whose
`'creditos'` is a positive number. -/
def qualifying (grades : List SubjectDict) : List (ℚ × ℚ) :=
  grades.filterMap (fun s =>
    match parse_grade (s.nota.getD "0"), getCred s with
    | some g, .num c => if c > 0 then some (g, c) else none
    | _, _ => none)

/-- The claim-side GPA: `round(Σ grade·credits / Σ credits, 2)` over the
qualifying subjects when their credit sum is positive, else `None`. -/
def claimGpa (grades : List SubjectDict) : Option ℚ :=
  let q := qualifying grades
  let tc := (q.map Prod.snd).sum
  if tc > 0 then some (pyRound2 ((q.map (fun p => p.1 * p.2)).sum / tc))
  else none

/-! ## Auxiliary definitions used by the statements below -/

/-- Number of occurrences of one browser action in a trace. -/
def countAction (a : BrowserAction) (tr : List BrowserAction) : Nat :=
  (tr.filter (fun x => x == a)).length

/-- Does an error message indicate, in any of the obvious spellings, that the
session is not logged in? -/
def mentionsNotLoggedIn (s : String) : Bool :=
  strContains (strToLower s) "logado" || strContains (strToLower s) "logged" ||
  strContains (strToLower s) "login" || strContains (strToLower s) "sessão" ||
  strContains (strToLower s) "sessao" || strContains (strToLower s) "session"

/-- No subject of the list combines a parseable `'nota'` with a non-numeric
`'creditos'` value (the one combination whose credits comparison raises a
`TypeError` inside `calculate_gpa`). -/
def gpaSafe (grades : List SubjectDict) : Prop :=
  ∀ s ∈ grades, (parse_grade (s.nota.getD "0")).isSome → getCred s ≠ .other

/-! ## Concrete states and environments used by the closed theorems below -/

/-- Concrete login environment in which the full browser sequence runs and
fails: the fields are found, the credentials are submitted, but the resulting
page shows none of the success indicators. -/
def loginFailEnv : LoginEnv :=
  { newPageRaises := none, fieldsFound := true, midRaises := none,
    currentUrl := LOGIN_URL,
    pageContent := "pagina publica do sistema",
    extractInfoOutcome := .ok [], errorScrape := none }

/-- Concrete login environment in which the full browser sequence runs and
succeeds. -/
def loginOkEnv : LoginEnv :=
  { loginFailEnv with pageContent := "Bem-vindo ao Portal do Discente" }

/-- Concrete download environment for the logged-out scenario. -/
def loggedOutDLEnv : DownloadEnv :=
  { downloadPathEnv := none, timestamp := "20250101_120000",
    termOutcome := fun _ => .found, clickRaises := none, now := 0, fs := [] }

/-- Concrete logged-in state. -/
def stLogged : ActorState :=
  { browserActive := true, hasCurrentPage := true,
    is_logged_in_flag := true, user_info := [] }

/-- Concrete download environment with one fresh (10 s old) pdf in the
downloads directory. -/
def freshDLEnv : DownloadEnv :=
  { downloadPathEnv := none, timestamp := "20250101_120000",
    termOutcome := fun _ => .found, clickRaises := none,
    now := 1000, fs := [{ dir := "/app/data/downloads", name := "doc.pdf",
                          mtime := 990 }] }

/-- Concrete download environment whose only pdf is 100 s old (stale). -/
def staleDLEnv : DownloadEnv :=
  { freshDLEnv with fs := [{ dir := "/app/data/downloads", name := "doc.pdf",
                             mtime := 900 }] }

/-- List on which the claimed formula and the code disagree: the second
subject's `'nota'` parses, so Python goes on to evaluate `'x' > 0`
(`creditos` is the string `'x'`), raising a `TypeError` that the outer
`except` converts into `None` — discarding the first, perfectly valid
subject. -/
def gpaBadList : List SubjectDict :=
  [{ nota := some "8", creditos := some (.num 2) },
   { nota := some "7", creditos := some .other }]


/-! ## Reachable actor states

The states an actor instance can be in during a program run: the initial
state of `__init__`, and closure under the state-mutating operations
(`initialize`, which sets `self.browser` whether or not `browser.start()`
then raises; `login`; `logout`; `cleanup`).  The remaining operations
(`navigate_to_section`, `download_document`, `check_status`, the extractors)
never assign the modelled fields. -/
inductive Reachable : ActorState → Prop
  | init : Reachable initialActorState
  | doInitBrowser (st : ActorState) : Reachable st →
      Reachable { st with browserActive := true }
  | doLogin (st : ActorState) (env : LoginEnv) (u p : String) (f : Bool) :
      Reachable st → Reachable (login env st u p f).state
  | doLogout (st : ActorState) (env : LogoutEnv) :
      Reachable st → Reachable (logout env st).2
  | doCleanup (st : ActorState) (stopRaises : Bool) :
      Reachable st → Reachable (cleanup stopRaises st)

/-! ## Shared lemmas about `login` -/

/-- A `login` call that reports success leaves the logged-in flag set. -/
theorem login_success_flag (env : LoginEnv) (st : ActorState) (u p : String)
    (f : Bool) :
    (login env st u p f).result.success = true →
    (login env st u p f).state.is_logged_in_flag = true := by
  unfold login
  split
  next hc =>
    intro _
    simp only [Bool.and_eq_true] at hc
    exact hc.1
  next =>
    split
    next => intro h; simp at h
    next =>
      split
      next => intro h; simp at h
      next =>
        split
        next => intro h; simp at h
        next =>
          split
          next => intro _; rfl
          next => intro h; simp at h

/-- The memoized short-circuit of `login`: with the flag up and
`force_new=false`, the cached dict is returned, the state is untouched and no
browser action happens. -/
theorem login_cached (env : LoginEnv) (st : ActorState) (u p : String)
    (h : st.is_logged_in_flag = true) :
    login env st u p false =
      { result := { success := true, message := some "Já logado no SIGAA",
                    logged_in := some true, user_info := some st.user_info },
        state := st, trace := [] } := by
  unfold login
  rw [if_pos (by simp [h])]

/-- Every branch of `login` ends in a dict that reports success or carries an
error string. -/
theorem login_structured (env : LoginEnv) (st : ActorState) (u p : String)
    (f : Bool) :
    (login env st u p f).result.success = true ∨
      ((login env st u p f).result.error).isSome = true := by
  unfold login
  split
  · left; rfl
  · split
    · right; rfl
    · split
      · right; rfl
      · split
        · right; rfl
        · split
          · left; rfl
          · right; rfl

/-- C2, counterexample.  The claim's consequence "two consecutive login calls
with `force_new=false` and unchanged credentials execute the browser login
sequence at most once" fails when the first call fails: with the flag still
down, the second call navigates, fills and submits again, so the submit
(`clickLogin`) runs twice across the two calls. -/
theorem C2_counterexample :
    (login loginFailEnv initialActorState "user" "senha" false).result.success
        = false ∧
    ¬ (countAction .clickLogin
        ((login loginFailEnv initialActorState "user" "senha" false).trace ++
          (login loginFailEnv
            (login loginFailEnv initialActorState "user" "senha" false).state
            "user" "senha" false).trace) ≤ 1) := by
  constructor
  · rfl
  · have h : countAction .clickLogin
        ((login loginFailEnv initialActorState "user" "senha" false).trace ++
          (login loginFailEnv
            (login loginFailEnv initialActorState "user" "senha" false).state
            "user" "senha" false).trace) = 2 := rfl
    rw [h]
    decide

/-- C2 (amended): for every session state whose logged-in flag is already
true, `login` with `force_new=false` returns the cached success immediately:
the exact memoized dict, an unchanged state, and an empty browser-action
trace.  Hence, whenever the first of two consecutive `login` calls with
`force_new=false` returns success, the second performs no browser interaction
at all, so the browser login sequence runs at most once across the two
calls. -/
theorem C2_login_short_circuit :
    (∀ (env : LoginEnv) (st : ActorState) (u p : String),
      st.is_logged_in_flag = true →
      login env st u p false =
        { result := { success := true, message := some "Já logado no SIGAA",
                      logged_in := some true, user_info := some st.user_info },
          state := st, trace := [] }) ∧
    (∀ (env₁ env₂ : LoginEnv) (st : ActorState) (u p u₂ p₂ : String),
      (login env₁ st u p false).result.success = true →
      (login env₂ (login env₁ st u p false).state u₂ p₂ false).trace = []) := by
  constructor
  · intro env st u p h
    exact login_cached env st u p h
  · intro env₁ env₂ st u p u₂ p₂ h
    have hflag := login_success_flag env₁ st u p false h
    rw [login_cached env₂ _ u₂ p₂ hflag]

/-- C2, witness: at a concrete logged-in state the short-circuit applies, and
after a concrete successful first call the second call's trace is empty. -/
theorem C2_login_short_circuit_witness :
    (login loginFailEnv
        { initialActorState with is_logged_in_flag := true } "u" "p" false).trace
      = [] ∧
    (login loginFailEnv
        (login loginOkEnv initialActorState "u" "p" false).state
        "u" "p" false).trace = [] := by
  constructor
  · have h := C2_login_short_circuit.1 loginFailEnv
      { initialActorState with is_logged_in_flag := true } "u" "p" rfl
    rw [h]
  · exact C2_login_short_circuit.2 loginOkEnv loginFailEnv initialActorState
      "u" "p" "u" "p" (by decide)

/-! ## C5: status read (src/sigaa_actor.py `check_status`,
src/server.py `get_status_login`) -/

/-- C5, counterexample.  Before any login attempt the browser is not
initialized, and `check_status` then returns `success: False` (with the
error `"Browser não inicializado"`), not the `success: true` the claim
states. -/
theorem C5_counterexample :
    (check_status { urlEval := none } initialActorState).success = false ∧
    (check_status { urlEval := none } initialActorState).error
      = some "Browser não inicializado" := by
  exact ⟨rfl, rfl⟩

/-- C5 (amended): `check_status` never raises and never mutates state (it is
a total function of the state); with the browser uninitialized it returns the
structured failure `success: False, logged_in: False, error: "Browser não
inicializado"`; with the browser initialized but no login performed it
returns `success: true` and `logged_in: false`. -/
theorem C5_status_read (env : StatusEnv) (st : ActorState) :
    (st.browserActive = false →
      check_status env st =
        { success := false, logged_in := some false,
          error := some "Browser não inicializado" }) ∧
    (st.browserActive = true → st.is_logged_in_flag = false →
      (check_status env st).success = true ∧
      (check_status env st).logged_in = some false) := by
  constructor
  · intro h
    unfold check_status
    rw [if_pos h]
  · intro h1 h2
    unfold check_status
    rw [if_neg (by simp [h1])]
    split
    · cases env.urlEval <;> simp [h2]
    · simp [h2]

/-- C5, witness: the amended behaviour at the uninitialized state and at an
initialized-but-logged-out state. -/
theorem C5_status_read_witness :
    check_status { urlEval := none } initialActorState =
      { success := false, logged_in := some false,
        error := some "Browser não inicializado" } ∧
    (check_status { urlEval := none }
        { browserActive := true, hasCurrentPage := false,
          is_logged_in_flag := false, user_info := [] }).success = true := by
  constructor
  · exact (C5_status_read { urlEval := none } initialActorState).1 rfl
  · exact ((C5_status_read { urlEval := none }
      { browserActive := true, hasCurrentPage := false,
        is_logged_in_flag := false, user_info := [] }).2 rfl rfl).1

/-! ## C9: startup status overwrite (src/server.py) -/

/-- C9: every run of the startup login procedure (including the one performed
by the reset-session tool) overwrites all three `startup_status` fields —
the outcome is independent of the prior status — and afterwards
`success == logged_in` holds; `reiniciar_sessao` returns exactly the three
fields of the fresh status. -/
theorem C9_startup_status (env : ServerLoginEnv) (st st' : StartupStatus) :
    full_login_procedure_discente env st = full_login_procedure_discente env st' ∧
    (full_login_procedure_discente env st).success
      = (full_login_procedure_discente env st).logged_in ∧
    (reiniciar_sessao env st).2 = full_login_procedure_discente env st ∧
    (reiniciar_sessao env st).1 =
      { success := (full_login_procedure_discente env st).success,
        message := some (full_login_procedure_discente env st).message,
        logged_in := some (full_login_procedure_discente env st).logged_in } := by
  cases h : env.loginOutcome <;>
    simp [full_login_procedure_discente, reiniciar_sessao, h]

/-! ## C4: structured results at the operation boundary -/

/-- Every branch of the `navigate_to_section` term loop reports success or
carries an error string. -/
theorem navLoop_structured (env : NavEnv) (sectionArg : String)
    (terms : List String) :
    (navLoop env sectionArg terms).success = true ∨
      ((navLoop env sectionArg terms).error).isSome = true := by
  induction terms with
  | nil => right; rfl
  | cons t rest ih =>
    unfold navLoop
    cases env.termOutcome t
    · exact ih
    · exact ih
    · left; rfl

/-- `navigate_to_section` reports success or carries an error string. -/
theorem navigate_structured (env : NavEnv) (st : ActorState)
    (sectionArg : String) :
    (navigate_to_section env st sectionArg).success = true ∨
      ((navigate_to_section env st sectionArg).error).isSome = true := by
  unfold navigate_to_section
  split
  · right; rfl
  · exact navLoop_structured env sectionArg _

/-- Every branch of `downloadCheck` reports success or carries an error
string. -/
theorem downloadCheck_structured (env : DownloadEnv) (dt fmt phrase : String) :
    (downloadCheck env dt fmt phrase).1.success = true ∨
      ((downloadCheck env dt fmt phrase).1.error).isSome = true := by
  unfold downloadCheck
  dsimp only
  repeat' split
  all_goals first | (left; rfl) | (right; rfl)

/-- Every branch of the `download_document` term loop reports success or
carries an error string. -/
theorem downloadLoop_structured (env : DownloadEnv) (st : ActorState)
    (dt fmt : String) (terms : List String) :
    (downloadLoop env st dt fmt terms).1.success = true ∨
      ((downloadLoop env st dt fmt terms).1.error).isSome = true := by
  induction terms with
  | nil => right; rfl
  | cons t rest ih =>
    unfold downloadLoop
    split
    · exact ih
    · cases env.termOutcome t
      · exact ih
      · exact ih
      · cases env.clickRaises
        · exact downloadCheck_structured env dt fmt _
        · exact ih

/-- `download_document` reports success or carries an error string. -/
theorem download_structured (env : DownloadEnv) (st : ActorState)
    (dt fmt : String) :
    (download_document env st dt fmt).1.success = true ∨
      ((download_document env st dt fmt).1.error).isSome = true :=
  downloadLoop_structured env st dt fmt (searchTermsOf dt)

/-- `logout` reports success or carries an error string. -/
theorem logout_structured (env : LogoutEnv) (st : ActorState) :
    (logout env st).1.success = true ∨
      ((logout env st).1.error).isSome = true := by
  unfold logout
  split
  · left; rfl
  · cases env.lookupOutcome
    · right; rfl
    · cases env.clickRaises
      · left; rfl
      · right; rfl
    · left; rfl

/-- `check_status` reports success or carries an error string. -/
theorem check_status_structured (env : StatusEnv) (st : ActorState) :
    (check_status env st).success = true ∨
      ((check_status env st).error).isSome = true := by
  unfold check_status
  split
  · right; rfl
  · split
    · cases env.urlEval
      · left; rfl
      · left; rfl
    · left; rfl

/-- C4: at the tool/operation boundary, every operation — `login`,
`navigate_to_section`, `download_document`, `logout`, `check_status` — is a
total function of its oracle (exceptions are part of the oracle and never
propagate) whose result dict reports success or carries an error string; and
the server tool wrapper `baixar_historico_escolar` converts every exception
raised by the agent run into `{"success": False, "error": str(e)}`. -/
theorem C4_structured_results :
    (∀ (env : LoginEnv) (st : ActorState) (u p : String) (f : Bool),
      (login env st u p f).result.success = true ∨
        ((login env st u p f).result.error).isSome = true) ∧
    (∀ (env : NavEnv) (st : ActorState) (sectionArg : String),
      (navigate_to_section env st sectionArg).success = true ∨
        ((navigate_to_section env st sectionArg).error).isSome = true) ∧
    (∀ (env : DownloadEnv) (st : ActorState) (dt fmt : String),
      (download_document env st dt fmt).1.success = true ∨
        ((download_document env st dt fmt).1.error).isSome = true) ∧
    (∀ (env : LogoutEnv) (st : ActorState),
      (logout env st).1.success = true ∨
        ((logout env st).1.error).isSome = true) ∧
    (∀ (env : StatusEnv) (st : ActorState),
      (check_status env st).success = true ∨
        ((check_status env st).error).isSome = true) ∧
    (∀ (env : AgentEnv) (e : String), env.outcome = .error e →
      baixar_historico_escolar env = { success := false, error := some e }) := by
  refine ⟨login_structured, navigate_structured, download_structured,
    logout_structured, check_status_structured, ?_⟩
  intro env e h
  unfold baixar_historico_escolar
  rw [h]

/-- C4, witness: the exception-conversion clause of the wrapper at a concrete
raising agent run, and the login clause at a concrete failing environment. -/
theorem C4_structured_results_witness :
    baixar_historico_escolar { outcome := .error "boom" } =
      { success := false, error := some "boom" } ∧
    ((login loginFailEnv initialActorState "u" "p" false).result.success = true ∨
      ((login loginFailEnv initialActorState "u" "p" false).result.error).isSome
        = true) := by
  constructor
  · exact C4_structured_results.2.2.2.2.2 { outcome := .error "boom" } "boom" rfl
  · exact C4_structured_results.1 loginFailEnv initialActorState "u" "p" false

/-! ## C3: logout resets state -/

/-- `login` either leaves the state untouched or produces a state with a
current page. -/
theorem login_state_cases (env : LoginEnv) (st : ActorState) (u p : String)
    (f : Bool) :
    (login env st u p f).state = st ∨
      (login env st u p f).state.hasCurrentPage = true := by
  unfold login
  split
  · left; rfl
  · split
    · left; rfl
    · split
      · left; rfl
      · split
        · left; rfl
        · split
          · right; rfl
          · left; rfl

/-- `logout` either merely lowers the flag or lowers the flag and clears
`user_info`; no branch touches `current_page`. -/
theorem logout_state_cases (env : LogoutEnv) (st : ActorState) :
    (logout env st).2 = { st with is_logged_in_flag := false } ∨
      (logout env st).2 =
        { st with is_logged_in_flag := false, user_info := [] } := by
  unfold logout
  split
  · left; rfl
  · cases env.lookupOutcome
    · left; rfl
    · cases env.clickRaises
      · right; rfl
      · left; rfl
    · right; rfl

/-- Invariant of every reachable actor state: without a current page,
`user_info` is empty.  (`user_info` only ever becomes non-empty in `login`'s
success branch, which also sets the page; `cleanup` clears both or
neither.) -/
theorem reachable_no_page_no_user_info (st : ActorState) (h : Reachable st) :
    st.hasCurrentPage = false → st.user_info = [] := by
  induction h with
  | init => intro _; rfl
  | doInitBrowser st' _ ih => intro hp; exact ih hp
  | doLogin st' env u p f _ ih =>
    rcases login_state_cases env st' u p f with hc | hc
    · rw [hc]; exact ih
    · intro hp; rw [hc] at hp; simp at hp
  | doLogout st' env _ ih =>
    rcases logout_state_cases env st' with hc | hc
    · rw [hc]; exact ih
    · rw [hc]; intro _; rfl
  | doCleanup st' stopRaises _ ih =>
    unfold cleanup
    split
    · exact ih
    · intro _; rfl

/-- C3: on every state the actor can actually be in, a `logout` call that
returns `success: True` leaves `is_logged_in()` false and `user_info` empty;
and the flag reset itself is unconditional — every `logout` call, successful
or not, with or without a sign-out control found and clicked, lowers the
flag. -/
theorem C3_logout_resets_state (env : LogoutEnv) (st : ActorState)
    (h : Reachable st) :
    ((logout env st).1.success = true →
      is_logged_in (logout env st).2 = false ∧ (logout env st).2.user_info = []) ∧
    (logout env st).2.is_logged_in_flag = false := by
  constructor
  · unfold logout
    split
    next hp =>
      intro _
      exact ⟨rfl, reachable_no_page_no_user_info st h hp⟩
    next =>
      split
      · intro hs; simp at hs
      · split
        · intro hs; simp at hs
        · intro _; exact ⟨rfl, rfl⟩
      · intro _; exact ⟨rfl, rfl⟩
  · rcases logout_state_cases env st with hc | hc <;> rw [hc]

/-- C3, witness: at the (reachable) initial state with a concrete
environment, a successful logout leaves the flag down and `user_info`
empty. -/
theorem C3_logout_resets_state_witness :
    is_logged_in (logout { lookupOutcome := .notFound, clickRaises := none }
        initialActorState).2 = false ∧
    (logout { lookupOutcome := .notFound, clickRaises := none }
        initialActorState).2.user_info = [] :=
  (C3_logout_resets_state { lookupOutcome := .notFound, clickRaises := none }
    initialActorState Reachable.init).1 rfl

/-! ## C6: download while logged out -/

/-- With no current page, every iteration of the term loop raises an
`AttributeError` before any browser or filesystem action and `continue`s, so
the loop falls through to the generic failure with an untouched filesystem
and an empty action trace. -/
theorem downloadLoop_no_page (env : DownloadEnv) (st : ActorState)
    (dt fmt : String) (h : st.hasCurrentPage = false) (terms : List String) :
    downloadLoop env st dt fmt terms = (downloadFailure dt, env.fs, []) := by
  induction terms with
  | nil => rfl
  | cons t rest ih =>
    unfold downloadLoop
    rw [if_pos h]
    exact ih

/-- C6, counterexample.  `fetch("historico_academico", "pdf")` while logged
out does fail without filesystem writes, but its error is the generic
`"Não foi possível baixar documento: historico_academico"`, which does not
indicate (in any spelling) that the session is not logged in — the operation
has no logged-in check at all. -/
theorem C6_counterexample :
    (download_document loggedOutDLEnv initialActorState
        "historico_academico" "pdf").1.error
      = some "Não foi possível baixar documento: historico_academico" ∧
    mentionsNotLoggedIn "Não foi possível baixar documento: historico_academico"
      = false ∧
    (download_document loggedOutDLEnv initialActorState
        "historico_academico" "pdf").1.success = false := by
  exact ⟨rfl, rfl, rfl⟩

/-- C6 (amended): `fetch`/`download_document` while not logged in (no active
page) returns `success: False` with the generic download-failure error naming
the document type (not a not-logged-in message), no `file_path`, and performs
no filesystem action at all (no directory created, no file created, renamed
or moved): the filesystem is returned unchanged and the action trace is
empty. -/
theorem C6_download_logged_out (env : DownloadEnv) (st : ActorState)
    (dt fmt : String) (h : st.hasCurrentPage = false) :
    download_document env st dt fmt = (downloadFailure dt, env.fs, []) ∧
    (download_document env st dt fmt).1.success = false ∧
    (download_document env st dt fmt).1.error
      = some ("Não foi possível baixar documento: " ++ dt) ∧
    (download_document env st dt fmt).1.file_path = none := by
  have he := downloadLoop_no_page env st dt fmt h (searchTermsOf dt)
  unfold download_document
  rw [he]
  exact ⟨rfl, rfl, rfl, rfl⟩

/-- C6, witness: the amended behaviour at the concrete logged-out state. -/
theorem C6_download_logged_out_witness :
    download_document loggedOutDLEnv initialActorState "historico_academico" "pdf"
      = (downloadFailure "historico_academico", loggedOutDLEnv.fs, []) :=
  (C6_download_logged_out loggedOutDLEnv initialActorState
    "historico_academico" "pdf" rfl).1

/-! ## C7: unknown document types are passed through verbatim -/

/-- The search-term list is never empty: either the document type is a key of
`doc_map` (all of whose values are non-empty lists) or the type itself is the
single term. -/
theorem searchTermsOf_ne_nil (dt : String) : searchTermsOf dt ≠ [] := by
  unfold searchTermsOf
  cases h : docMapLookup dt with
  | none => simp
  | some l =>
    unfold docMapLookup at h
    split at h <;> (rw [← h]; simp)

/-- The trace of `downloadCheck` is the lookup/mkdir/click prefix, possibly
followed by the rename of the accepted file. -/
theorem downloadCheck_trace (env : DownloadEnv) (dt fmt phrase : String) :
    (downloadCheck env dt fmt phrase).2.2 =
      [.promptLookup phrase, .mkdirp (env.downloadPathEnv.getD DOWNLOADS_DIR),
       .click] ∨
    ∃ d n, (downloadCheck env dt fmt phrase).2.2 =
      [.promptLookup phrase, .mkdirp (env.downloadPathEnv.getD DOWNLOADS_DIR),
       .click,
       .renameFile d n (env.downloadPathEnv.getD DOWNLOADS_DIR)
         (dt ++ "_" ++ env.timestamp ++ "." ++ fmt)] := by
  unfold downloadCheck
  dsimp only
  repeat' split
  all_goals first | (left; rfl) | (right; exact ⟨_, _, rfl⟩)

/-- C7: a `document_type` that is not a key of the fixed document map is
never rejected up front: it becomes the single search phrase, used verbatim —
every prompt lookup in the trace uses exactly the phrase built from it, and
when a page is active the lookup is in fact attempted — and the call still
returns a structured result (success or an error string). -/
theorem C7_unknown_doc_type (env : DownloadEnv) (st : ActorState)
    (dt fmt : String) (h : docMapLookup dt = none) :
    searchTermsOf dt = [dt] ∧
    ((download_document env st dt fmt).1.success = true ∨
      ((download_document env st dt fmt).1.error).isSome = true) ∧
    (∀ s, FileAction.promptLookup s ∈ (download_document env st dt fmt).2.2 →
      s = "link para gerar ou baixar " ++ dt) ∧
    (st.hasCurrentPage = true →
      FileAction.promptLookup ("link para gerar ou baixar " ++ dt)
        ∈ (download_document env st dt fmt).2.2) := by
  have hterms : searchTermsOf dt = [dt] := by
    unfold searchTermsOf
    rw [h]
    rfl
  refine ⟨hterms, download_structured env st dt fmt, ?_, ?_⟩
  all_goals unfold download_document
  all_goals rw [hterms]
  all_goals unfold downloadLoop
  · -- every prompt lookup in the trace uses the verbatim phrase
    split
    · intro s hs
      simp [downloadLoop] at hs
    · cases hto : env.termOutcome dt
      · intro s hs
        simp [downloadLoop] at hs
        exact hs
      · intro s hs
        simp [downloadLoop] at hs
        exact hs
      · cases hcr : env.clickRaises
        · rcases downloadCheck_trace env dt fmt ("link para gerar ou baixar " ++ dt)
            with htr | ⟨d, n, htr⟩ <;>
          · rw [htr]
            intro s hs
            simp at hs
            exact hs
        · intro s hs
          simp [downloadLoop] at hs
          exact hs
  · -- when a page is active, the lookup is attempted
    intro hp
    rw [if_neg (by simp [hp])]
    cases hto : env.termOutcome dt
    · simp [downloadLoop]
    · simp [downloadLoop]
    · cases hcr : env.clickRaises
      · rcases downloadCheck_trace env dt fmt ("link para gerar ou baixar " ++ dt)
          with htr | ⟨d, n, htr⟩ <;>
        · rw [htr]
          simp
      · simp [downloadLoop]

/-! ## C1: download recency window -/

/-- A prefix is in particular an infix, for the boolean checker. -/
theorem charsInfixB_of_leading (pat l : List Char) (h : pat <+: l) :
    charsInfixB pat l = true := by
  cases l with
  | nil =>
    have : pat = [] := List.prefix_nil.mp h
    rw [this]
    rfl
  | cons c rest =>
    unfold charsInfixB
    rw [List.isPrefixOf_iff_prefix.mpr h]
    rfl

/-- Python `a in (a + b)` always holds. -/
theorem strContains_left (a b : String) : strContains (a ++ b) a = true := by
  unfold strContains
  apply charsInfixB_of_leading
  show a.data <+: (a ++ b).data
  rw [String.data_append]
  exact List.prefix_append a.data b.data

/-- The latest-file scan over a one-file directory listing. -/
theorem selectLatest_singleton (f : FSEntry) :
    selectLatest [f] = if f.mtime > 0 then (some f, f.mtime) else (none, 0) := by
  unfold selectLatest
  simp [List.foldl]

/-- When a page is active, the head term's link is found and the click does
not raise, the download runs the post-click check for the head term's
phrase. -/
theorem downloadLoop_head_found (env : DownloadEnv) (st : ActorState)
    (dt fmt t0 : String) (ts : List String)
    (hp : st.hasCurrentPage = true)
    (ht : env.termOutcome t0 = .found)
    (hc : env.clickRaises = none) :
    downloadLoop env st dt fmt (t0 :: ts) =
      downloadCheck env dt fmt ("link para gerar ou baixar " ++ t0) := by
  unfold downloadLoop
  rw [if_neg (by simp [hp]), ht, hc]

/-- After `fsRename`, the target path exists. -/
theorem fsExists_fsRename (fs : FS) (old : FSEntry) (toDir toName : String) :
    fsExists (fsRename fs old toDir toName) toDir toName = true := by
  unfold fsExists fsRename
  simp

/-- C1: under the download scenario (active page, link found for the head
search term, click succeeds, timestamped target not already present), the
filesystem scan accepts a candidate only as the code selects it: with the
downloads directory holding exactly one file of the requested extension,
(a) if its modification time is positive and within 60 seconds of "now" the
result is success, the `file_path` is the canonical timestamped destination,
that path exists on the resulting filesystem, and the filename embeds the
requested document type; (b) if the file is at least 60 seconds old the
result is failure with no `file_path`; and (c) any success implies the scan
selected a most-recent matching file whose age is below the 60-second
window. -/
theorem C1_download_recency (env : DownloadEnv) (st : ActorState)
    (dt fmt : String)
    (hp : st.hasCurrentPage = true)
    (hterm : ∀ t, env.termOutcome t = .found)
    (hclick : env.clickRaises = none)
    (hpre : fsExists env.fs (env.downloadPathEnv.getD DOWNLOADS_DIR)
        (dt ++ "_" ++ env.timestamp ++ "." ++ fmt) = false) :
    (∀ f, globExt env.fs DOWNLOADS_DIR fmt = [f] → 0 < f.mtime →
      env.now - f.mtime < 60 →
      (download_document env st dt fmt).1.success = true ∧
      (download_document env st dt fmt).1.file_path =
        some (env.downloadPathEnv.getD DOWNLOADS_DIR ++ "/" ++
          (dt ++ "_" ++ env.timestamp ++ "." ++ fmt)) ∧
      fsExists (download_document env st dt fmt).2.1
        (env.downloadPathEnv.getD DOWNLOADS_DIR)
        (dt ++ "_" ++ env.timestamp ++ "." ++ fmt) = true ∧
      strContains (dt ++ "_" ++ env.timestamp ++ "." ++ fmt) dt = true) ∧
    (∀ f, globExt env.fs DOWNLOADS_DIR fmt = [f] → 60 ≤ env.now - f.mtime →
      (download_document env st dt fmt).1.success = false ∧
      (download_document env st dt fmt).1.file_path = none) ∧
    ((download_document env st dt fmt).1.success = true →
      ∃ sel t, selectLatest (globExt env.fs DOWNLOADS_DIR fmt) = (some sel, t) ∧
        env.now - t < 60) := by
  obtain ⟨t0, ts, hts⟩ := List.exists_cons_of_ne_nil (searchTermsOf_ne_nil dt)
  have hred : download_document env st dt fmt =
      downloadCheck env dt fmt ("link para gerar ou baixar " ++ t0) := by
    unfold download_document
    rw [hts]
    exact downloadLoop_head_found env st dt fmt t0 ts hp (hterm t0) hclick
  rw [hred]
  refine ⟨?_, ?_, ?_⟩
  · intro f hg hm hw
    unfold downloadCheck
    dsimp only
    rw [if_neg (by simp [hpre]), hg, selectLatest_singleton, if_pos hm]
    dsimp only
    rw [if_pos hw]
    refine ⟨rfl, rfl, fsExists_fsRename .., ?_⟩
    have : dt ++ "_" ++ env.timestamp ++ "." ++ fmt =
        dt ++ ("_" ++ (env.timestamp ++ ("." ++ fmt))) := by
      simp [String.append_assoc]
    rw [this]
    exact strContains_left dt _
  · intro f hg hstale
    unfold downloadCheck
    dsimp only
    rw [if_neg (by simp [hpre]), hg, selectLatest_singleton]
    by_cases hm : f.mtime > 0
    · rw [if_pos hm]
      dsimp only
      rw [if_neg (by omega)]
      exact ⟨rfl, rfl⟩
    · rw [if_neg hm]
      exact ⟨rfl, rfl⟩
  · intro hs
    unfold downloadCheck at hs
    dsimp only at hs
    rw [if_neg (by simp [hpre])] at hs
    split at hs
    next sel t heq =>
      split at hs
      next hw => exact ⟨sel, t, heq, hw⟩
      next => simp [downloadFailure] at hs
    next => simp [downloadFailure] at hs

/-- C1, witness: with the fresh file the request succeeds and renames it to
the canonical timestamped path; with only the stale file it fails with no
`file_path`. -/
theorem C1_download_recency_witness :
    (download_document freshDLEnv stLogged "historico_academico" "pdf").1.success
      = true ∧
    (download_document freshDLEnv stLogged "historico_academico" "pdf").1.file_path
      = some "/app/data/downloads/historico_academico_20250101_120000.pdf" ∧
    (download_document staleDLEnv stLogged "historico_academico" "pdf").1.success
      = false ∧
    (download_document staleDLEnv stLogged "historico_academico" "pdf").1.file_path
      = none := by
  have hfresh := (C1_download_recency freshDLEnv stLogged "historico_academico"
    "pdf" rfl (fun t => rfl) rfl (by decide)).1
    { dir := "/app/data/downloads", name := "doc.pdf", mtime := 990 }
    (by decide) (by decide) (by decide)
  have hstale := (C1_download_recency staleDLEnv stLogged "historico_academico"
    "pdf" rfl (fun t => rfl) rfl (by decide)).2.1
    { dir := "/app/data/downloads", name := "doc.pdf", mtime := 900 }
    (by decide) (by decide)
  refine ⟨hfresh.1, ?_, hstale.1, hstale.2⟩
  rw [hfresh.2.1]
  rfl

/-! ## C10: GPA computation -/

/-- On a safe list the accumulation loop never aborts and computes exactly
the filtered sums of the claim-side formulation, shifted by the starting
accumulators. -/
theorem gpaLoop_eq (grades : List SubjectDict) (h : gpaSafe grades) :
    ∀ tp tc : ℚ, gpaLoop grades (tp, tc) =
      .ok (tp + ((qualifying grades).map (fun p => p.1 * p.2)).sum,
           tc + ((qualifying grades).map Prod.snd).sum) := by
  induction grades with
  | nil =>
    intro tp tc
    simp [gpaLoop, qualifying]
  | cons s rest ih =>
    intro tp tc
    have hrest : gpaSafe rest := fun x hx hpx => h x (List.mem_cons_of_mem _ hx) hpx
    cases hg : parse_grade (s.nota.getD "0") with
    | none =>
      have hq : qualifying (s :: rest) = qualifying rest := by
        unfold qualifying
        rw [List.filterMap_cons]
        simp [hg]
      rw [hq]
      unfold gpaLoop
      simp only [hg]
      exact ih hrest tp tc
    | some g =>
      cases hc : getCred s with
      | other =>
        exact absurd hc (h s (List.mem_cons_self ..) (by simp [hg]))
      | num c =>
        by_cases hpos : c > 0
        · have hq : qualifying (s :: rest) = (g, c) :: qualifying rest := by
            unfold qualifying
            rw [List.filterMap_cons]
            simp [hg, hc, hpos]
          rw [hq]
          unfold gpaLoop
          simp only [hg, hc]
          rw [if_pos hpos, ih hrest]
          simp only [List.map_cons, List.sum_cons]
          rw [add_assoc, add_assoc]
        · have hq : qualifying (s :: rest) = qualifying rest := by
            unfold qualifying
            rw [List.filterMap_cons]
            simp [hg, hc, hpos]
          rw [hq]
          unfold gpaLoop
          simp only [hg, hc]
          rw [if_neg hpos]
          exact ih hrest tp tc

/-- C10, counterexample.  On `gpaBadList` the code returns `None`, while the
claimed formula over the subjects with parseable grades and positive numeric
credits gives `8`. -/
theorem C10_counterexample :
    calculate_gpa gpaBadList = none ∧
    claimGpa gpaBadList = some 8 ∧
    calculate_gpa gpaBadList ≠ claimGpa gpaBadList := by
  have h1 : calculate_gpa gpaBadList = none := by decide
  have h2 : claimGpa gpaBadList = some 8 := by
    unfold claimGpa
    rw [show qualifying gpaBadList = [(8, 2)] from by decide]
    norm_num
    show pyRound2 8 = 8
    unfold pyRound2 roundHalfEven ratFloor
    norm_num
  refine ⟨h1, h2, ?_⟩
  rw [h1, h2]
  simp

/-- C10 (amended): `calculate_gpa` never raises (it is a total function and
internal `TypeError`s are caught and become `None`), and whenever no subject
combines a parseable `'nota'` with a non-numeric `'creditos'`, it returns
`round(Σ grade·credits / Σ credits, 2)` over the subjects whose `'nota'`
parses and whose `'creditos'` is a positive number when at least one such
subject exists, and `None` otherwise — the division happens only under the
`total_credits > 0` guard, and in particular the empty list yields `None`. -/
theorem C10_calculate_gpa (grades : List SubjectDict) (h : gpaSafe grades) :
    calculate_gpa grades = claimGpa grades ∧ calculate_gpa [] = none := by
  refine ⟨?_, rfl⟩
  unfold calculate_gpa claimGpa
  rw [gpaLoop_eq grades h 0 0]
  simp only [zero_add]

/-- C10, witness: on a concrete safe two-subject list the code agrees with
the claimed formula. -/
theorem C10_calculate_gpa_witness :
    calculate_gpa
        [{ nota := some "8", creditos := some (.num 2) },
         { nota := some "7,5", creditos := some (.num 4) }] =
      claimGpa
        [{ nota := some "8", creditos := some (.num 2) },
         { nota := some "7,5", creditos := some (.num 4) }] :=
  (C10_calculate_gpa
    [{ nota := some "8", creditos := some (.num 2) },
     { nota := some "7,5", creditos := some (.num 4) }]
    (by intro s hs hp; fin_cases hs <;> simp [getCred])).1

/-! ## C8: PDF text extraction -/

/-- Unfolding of the page glue: one page, its newline, the rest. -/
theorem gluePages_cons (p : List Char) (ps : List (List Char)) :
    gluePages (p :: ps) = p ++ '\n' :: gluePages ps := by
  unfold gluePages
  simp

/-- Unfolding equation of the infix checker on a cons cell. -/
theorem charsInfixB_cons (pat : List Char) (c : Char) (rest : List Char) :
    charsInfixB pat (c :: rest) =
      (pat.isPrefixOf (c :: rest) || charsInfixB pat rest) := rfl

/-- Unfolding equation of the newline split at a newline. -/
theorem splitNl_nl_cons (rest : List Char) :
    splitNl ('\n' :: rest) = [] :: splitNl rest := by
  rw [splitNl.eq_2]
  rw [if_pos rfl]

/-- Unfolding equation of the newline split at a non-newline character. -/
theorem splitNl_cons (c : Char) (rest : List Char) (hc : c ≠ '\n') :
    splitNl (c :: rest) =
      match splitNl rest with
      | [] => [[c]]
      | s :: ss => (c :: s) :: ss := by
  rw [splitNl.eq_2]
  rw [if_neg hc]

/-- A pattern starting with a newline cannot start inside a newline-free
block, so the infix check skips over it. -/
theorem charsInfixB_nl_append (pat' p l : List Char) (h : '\n' ∉ p) :
    charsInfixB ('\n' :: pat') (p ++ l) = charsInfixB ('\n' :: pat') l := by
  induction p with
  | nil => rfl
  | cons c cs ih =>
    have hc : ('\n' == c) = false := by
      apply beq_eq_false_iff_ne.mpr
      intro he
      exact h (by rw [he]; exact List.mem_cons_self c cs)
    have hcs : '\n' ∉ cs := fun hm => h (List.mem_cons_of_mem _ hm)
    show charsInfixB ('\n' :: pat') (c :: (cs ++ l)) = _
    rw [charsInfixB_cons, List.isPrefixOf_cons₂, hc]
    simp only [Bool.false_and, Bool.false_or]
    exact ih hcs

/-- Splitting at the newline that terminates a newline-free block peels off
exactly that block. -/
theorem splitNl_append (p l : List Char) (h : '\n' ∉ p) :
    splitNl (p ++ '\n' :: l) = p :: splitNl l := by
  induction p with
  | nil => exact splitNl_nl_cons l
  | cons c cs ih =>
    have hc : c ≠ '\n' := by
      intro he
      exact h (by rw [← he]; exact List.mem_cons_self c cs)
    have hcs : '\n' ∉ cs := fun hm => h (List.mem_cons_of_mem _ hm)
    show splitNl (c :: (cs ++ '\n' :: l)) = _
    rw [splitNl_cons c _ hc, ih hcs]

/-- Splitting the glued pages on newlines recovers the pages (plus the empty
block after the final newline), provided no page contains a newline. -/
theorem splitNl_glue (ps : List (List Char)) (h : ∀ p ∈ ps, '\n' ∉ p) :
    splitNl (gluePages ps) = ps ++ [[]] := by
  induction ps with
  | nil => rfl
  | cons p ps ih =>
    rw [gluePages_cons, splitNl_append p _ (h p (List.mem_cons_self ..)),
      ih (fun q hq => h q (List.mem_cons_of_mem _ hq))]
    rfl

/-- `str.replace` is the identity when the pattern does not occur. -/
theorem replaceAll_of_absent (pat rep l : List Char)
    (h : charsInfixB pat l = false) : replaceAll pat rep l = l := by
  induction l with
  | nil => simp [replaceAll]
  | cons c rest ih =>
    rw [charsInfixB_cons, Bool.or_eq_false_iff] at h
    unfold replaceAll
    rw [h.1]
    simp only [Bool.false_and, Bool.false_eq_true, if_false]
    rw [ih h.2]

/-- The glued pages never contain a triple newline when every page is
non-empty and newline-free: each newline separator is followed by the first
character of a non-empty newline-free page (or ends the text). -/
theorem glue_no_triple_nl (ps : List (List Char))
    (h : ∀ p ∈ ps, p ≠ [] ∧ '\n' ∉ p) :
    charsInfixB ['\n', '\n', '\n'] (gluePages ps) = false := by
  induction ps with
  | nil => rfl
  | cons p ps ih =>
    rw [gluePages_cons,
      charsInfixB_nl_append _ p _ (h p (List.mem_cons_self ..)).2]
    rw [charsInfixB_cons, ih (fun q hq => h q (List.mem_cons_of_mem _ hq))]
    rw [Bool.or_false, List.isPrefixOf_cons₂]
    simp only [beq_self_eq_true, Bool.true_and]
    cases hps : ps with
    | nil => rfl
    | cons q qs =>
      rw [gluePages_cons]
      have hq := h q (by rw [hps]; exact List.mem_cons_of_mem _ (List.mem_cons_self ..))
      cases hqv : q with
      | nil => exact absurd hqv hq.1
      | cons d ds =>
        have hd : ('\n' == d) = false := by
          apply beq_eq_false_iff_ne.mpr
          intro he
          exact hq.2 (by rw [hqv, he]; exact List.mem_cons_self d ds)
        show List.isPrefixOf ['\n', '\n'] (d :: (ds ++ '\n' :: gluePages qs)) = false
        rw [List.isPrefixOf_cons₂, hd]
        rfl

/-- Cleaning the glued pages of a well-formed page list (each page non-empty,
newline-free and already stripped) is exactly the newline-join of the
pages. -/
theorem clean_glue (ps : List (List Char))
    (h : ∀ p ∈ ps, p ≠ [] ∧ '\n' ∉ p ∧ trimChars p = p) :
    _clean_extracted_text (gluePages ps) = intercalateNl ps := by
  unfold _clean_extracted_text
  dsimp only
  rw [replaceAll_of_absent _ _ _
    (glue_no_triple_nl ps (fun p hp => ⟨(h p hp).1, (h p hp).2.1⟩))]
  rw [splitNl_glue ps (fun p hp => (h p hp).2.1)]
  rw [List.map_append]
  rw [List.map_congr_left (fun p hp => (h p hp).2.2), List.map_id']
  have htrimnil : List.map trimChars [[]] = [([] : List Char)] := rfl
  rw [htrimnil, List.filter_append]
  have hfilter : ps.filter (fun l => !l.isEmpty) = ps := by
    apply List.filter_eq_self.mpr
    intro p hp
    simp [List.isEmpty_iff, (h p hp).1]
  rw [hfilter,
    show List.filter (fun l => !l.isEmpty) [([] : List Char)] = [] from rfl,
    List.append_nil]

/-- C8: `extract_text_from_pdf` returns `none` when the path does not exist;
returns `none` on any read or decode failure; and on a valid multi-page
document whose page texts are non-empty, newline-free and stripped, returns
the single string holding the pages in page order joined by newlines (the
whitespace normalization of `_clean_extracted_text` — blank-run collapse,
per-line strip, empty-line drop — leaves exactly that join). -/
theorem C8_extract_text (env : PDFEnv) :
    (env.fileExists = false → extract_text_from_pdf env = none) ∧
    (∀ e, env.readOutcome = .error e → extract_text_from_pdf env = none) ∧
    (∀ pages, env.fileExists = true → env.readOutcome = .ok pages →
      (∀ p ∈ pages, p ≠ [] ∧ '\n' ∉ p ∧ trimChars p = p) →
      extract_text_from_pdf env = some (intercalateNl pages)) := by
  refine ⟨?_, ?_, ?_⟩
  · intro h
    unfold extract_text_from_pdf
    rw [if_pos h]
  · intro e h
    unfold extract_text_from_pdf
    rw [h]
    split <;> rfl
  · intro pages hex hok hcl
    unfold extract_text_from_pdf
    rw [if_neg (by simp [hex]), hok]
    dsimp only
    rw [clean_glue pages hcl]

/-- C8, witness: a missing file yields `none`; a read failure yields `none`;
a concrete two-page document yields the pages joined by a newline. -/
theorem C8_extract_text_witness :
    extract_text_from_pdf { fileExists := false, readOutcome := .ok [] } = none ∧
    extract_text_from_pdf { fileExists := true, readOutcome := .error "bad" }
      = none ∧
    extract_text_from_pdf
        { fileExists := true, readOutcome := .ok [['a'], ['b', 'c']] }
      = some ['a', '\n', 'b', 'c'] := by
  refine ⟨?_, ?_, ?_⟩
  · exact (C8_extract_text { fileExists := false, readOutcome := .ok [] }).1 rfl
  · exact (C8_extract_text
      { fileExists := true, readOutcome := .error "bad" }).2.1 "bad" rfl
  · exact (C8_extract_text
      { fileExists := true, readOutcome := .ok [['a'], ['b', 'c']] }).2.2
      [['a'], ['b', 'c']] rfl rfl (by decide)

/-- C7, witness: `"xyz_unknown"` is not a key of the document map, becomes
the single verbatim search term, and its lookup phrase is attempted on a
concrete logged-in session. -/
theorem C7_unknown_doc_type_witness :
    searchTermsOf "xyz_unknown" = ["xyz_unknown"] ∧
    FileAction.promptLookup ("link para gerar ou baixar " ++ "xyz_unknown")
      ∈ (download_document freshDLEnv stLogged "xyz_unknown" "pdf").2.2 := by
  have h := C7_unknown_doc_type freshDLEnv stLogged "xyz_unknown" "pdf" rfl
  exact ⟨h.1, h.2.2.2 rfl⟩

end SigaaMCP
